import Mathlib

/-!
# Verification of the Download Registry & Transfer Pipeline

Shallow embedding of `src/cogs/downloader.py` of the telegram-downloader
repository: the module-level registry `downloading_files`, the admission
check `check_file_exists`, and the confirmation-button handler `button`
(its `query.data == "yes"` branch, which runs the fetch → relocate →
permission-fix → report pipeline).

Modelling conventions:
- The Python `dict[str, DownloadingFile]` registry is an insertion-ordered
  association list `List (String × DownloadingFile)` with Python `dict`
  semantics for `in`, `[k] = v` assignment, `.values()` and `.pop(k)`
  (the latter raises `KeyError` when the key is absent, since the code
  calls it without a default).
- The filesystem is the set of existing paths, as a `List String`;
  `os.path.exists p` is membership, `shutil.move src dst` removes `src`
  and adds `dst` (raising when `src` does not exist), `os.makedirs` of a
  directory is a no-op in this path-set view, and `os.chmod` is recorded
  in an audit log of `(path, mode)` pairs.
- `time.time()` readings and the outcome of `await context.bot.get_file`
  (which either yields an object whose `.file_path` is a string, or
  raises) are inputs of the pipeline function, as is whether `os.chmod`
  raises (fault injection).
- Replies sent to the chat are summarised by the returned `ButtonResult`.
-/

set_option autoImplicit false

namespace TelegramDownloader

/-- The `DownloadingFile` model object as constructed at the admission
site of `button` (`DownloadingFile(file_name=..., file_size=..., start_time=...)`).
The class itself lives in `src/models.py`, which only its users are given;
the three stored fields are exactly the ones the constructor call passes. -/
structure DownloadingFile where
  file_name : String
  file_size : Nat
  start_time : Nat
deriving Repr, DecidableEq

/-- Modelled from the spec: `SizeFormatter.formatDuration`
(`DownloadingFile.convert_duration` in the missing `src/models.py`)
"converts elapsed seconds into a human-readable `HH:MM:SS`-style" string;
pure and total. -/
def convert_duration (s : Nat) : String :=
  let pad2 : Nat → String := fun n => if n < 10 then "0" ++ toString n else toString n
  pad2 (s / 3600) ++ ":" ++ pad2 (s % 3600 / 60) ++ ":" ++ pad2 (s % 60)

/-- Modelled from the spec: `SizeFormatter.formatSize`
(`DownloadingFile.convert_size` in the missing `src/models.py`) "converts
to the largest unit (B/KB/MB/GB/…) with fixed precision"; pure and total,
with `formatSize 0 = "0 B"` and `formatSize (2^30) = "1 GB"`. -/
def convert_size (bytes : Nat) : String :=
  if bytes = 0 then "0 B"
  else if bytes < 1024 then toString bytes ++ " B"
  else if bytes < 1024 ^ 2 then toString (bytes / 1024) ++ " KB"
  else if bytes < 1024 ^ 3 then toString (bytes / 1024 ^ 2) ++ " MB"
  else toString (bytes / 1024 ^ 3) ++ " GB"

/-- The in-flight registry `downloading_files : dict[str, DownloadingFile]`. -/
abbrev Registry := List (String × DownloadingFile)

/-- Python `file_id in downloading_files`. -/
def dictContains (d : Registry) (k : String) : Bool :=
  d.any (fun p => p.1 == k)

/-- Python `downloading_files.values()`. -/
def dictValues (d : Registry) : List DownloadingFile :=
  d.map Prod.snd

/-- Python `downloading_files[k] = v`: replaces the value when the key is
present, otherwise appends the new binding (insertion order). -/
def dictInsert (d : Registry) (k : String) (v : DownloadingFile) : Registry :=
  if dictContains d k then d.map (fun p => if p.1 == k then (k, v) else p)
  else d ++ [(k, v)]

/-- Python `downloading_files.pop(k)` with no default: returns the removed
value and the remaining dict, or raises `KeyError` when `k` is absent. -/
def dictPop (d : Registry) (k : String) : Except String (DownloadingFile × Registry) :=
  match d.find? (fun p => p.1 == k) with
  | some p => .ok (p.2, d.filter (fun q => q.1 != k))
  | none => .error "KeyError"

/-- The value `check_file_exists` evaluates to at runtime: despite the
`tuple[bool, str]` annotation, the function returns either a 2-tuple
`(True, msg)` or the bare boolean `False` (line 74 is `return False`). -/
inductive PyCheck where
  | tuple (b : Bool) (msg : String)
  | boolean (b : Bool)
deriving Repr, DecidableEq

/-- Python truthiness of a `PyCheck` value: a nonempty tuple is truthy,
a boolean is its own truth value. -/
def truthy : PyCheck → Bool
  | .tuple _ _ => true
  | .boolean b => b

/-- Python `check[1]`: defined (the message) only on the tuple form;
indexing the bare boolean would raise `TypeError`. -/
def index1 : PyCheck → Option String
  | .tuple _ msg => some msg
  | .boolean _ => none

/-- `check_file_exists(file_id, file_name)` (downloader.py lines 53-74),
with the ambient module globals `DOWNLOAD_TO_DIR` and `downloading_files`
and the filesystem passed explicitly. -/
def check_file_exists (fs : List String) (download_to_dir : String)
    (downloading_files : Registry) (file_id file_name : String) : PyCheck :=
  if fs.contains (download_to_dir ++ file_name) then
    .tuple true "File already exists in downloads folder."
  else if dictContains downloading_files file_id then
    .tuple true "File is already being downloaded."
  else if (dictValues downloading_files).any (fun file => file.file_name == file_name) then
    .tuple true "File is already being downloaded."
  else
    .boolean false

/-- Module-level `TOKEN_SUB_DIR = BOT_TOKEN.replace(":", "") if os.name == "nt" else BOT_TOKEN`. -/
def token_sub_dir (bot_token : String) (os_name_is_nt : Bool) : String :=
  if os_name_is_nt then bot_token.replace ":" "" else bot_token

/-- Split a character list at every `'/'` (Python `s.split("/")` on the
character level; always yields a nonempty list of segments). -/
def splitSlash : List Char → List (List Char)
  | [] => [[]]
  | c :: cs =>
    match splitSlash cs with
    | [] => [[]]
    | seg :: segs => if c = '/' then [] :: seg :: segs else (c :: seg) :: segs

/-- Python `s.split("/")`: the slash-separated segments of `s`. -/
def pySplitSlash (s : String) : List String :=
  (splitSlash s.data).map String.mk

/-- Python `s.split("/")[-1]` (the last component of the slash-separated
path; `str.split` always yields a nonempty list). -/
def lastComponent (s : String) : String :=
  (pySplitSlash s).getLastD ""

/-- The module-level configuration consumed by `button`. -/
structure Env where
  bot_api_dir : String
  token_sub_dir : String
  download_to_dir : String
  platform_system : String
deriving Repr, DecidableEq

/-- `current_file_path = f"{BOT_API_DIR}{TOKEN_SUB_DIR}/documents/{file_path}"` (line 211). -/
def current_file_path (env : Env) (file_path : String) : String :=
  env.bot_api_dir ++ env.token_sub_dir ++ "/documents/" ++ file_path

/-- `move_to_path = f"{DOWNLOAD_TO_DIR}{file_name}"` (line 212): raw
string concatenation of the configured directory and the sender-supplied
file name, with no sanitization. -/
def move_to_path (download_to_dir file_name : String) : String :=
  download_to_dir ++ file_name

/-- `shutil.move(src, dst)` on the path-set filesystem: moves the file,
raising when the source does not exist. -/
def shutilMove (fs : List String) (src dst : String) : Except String (List String) :=
  if fs.contains src then .ok (dst :: fs.filter (fun p => p != src))
  else .error "FileNotFoundError"

/-- The mutable world `button` touches: the filesystem, the module-level
`downloading_files` registry, and an audit log of applied `os.chmod` calls. -/
structure St where
  fs : List String
  registry : Registry
  chmods : List (String × Nat)
deriving Repr, DecidableEq

/-- The transfer summary reported on success (lines 229-237): file name,
the reported file path (`new_file.file_path.split("/")[-1]`), formatted
size, and the three formatted durations. -/
structure TransferSummary where
  file_name : String
  file_path : String
  file_size_mb : String
  download_duration : String
  moving_duration : String
  total_duration : String
deriving Repr, DecidableEq

/-- The outward-facing outcome of the `yes` branch of `button`. -/
inductive ButtonResult where
  /-- Line 168: replied with `check[1]` and returned. -/
  | alreadyExists (msg : String)
  /-- Lines 188-198: `context.bot.get_file` raised; replied with the cause. -/
  | fetchError (cause : String)
  /-- An exception escaped the handler (no `try` guards `shutil.move` or `os.chmod`). -/
  | uncaught (cause : String)
  /-- Lines 229-239: the success summary was sent. -/
  | success (s : TransferSummary)
deriving Repr, DecidableEq

/-- Lines 163-182 of `button`: the duplicate check and, when it passes,
the construction of the `DownloadingFile` and its insertion into
`downloading_files` — there is no `await` between the check and the
insert, so in the asyncio model this whole block is one atomic step.
Returns `none` when admission is rejected. -/
def admitOutcome (env : Env) (st : St) (file_id file_name : String)
    (file_size start_time : Nat) : Option St :=
  if truthy (check_file_exists st.fs env.download_to_dir st.registry file_id file_name) then
    none
  else
    let downloading_file : DownloadingFile :=
      ⟨file_name, file_size, start_time⟩
    some { st with registry := dictInsert st.registry file_id downloading_file }

/-- The registry contents in effect at the moment line 216
(`shutil.move(current_file_path, move_to_path)`) executes, for a run that
was admitted and whose fetch succeeded: the `pop` at line 201 has already
run. `none` when the run is rejected at admission or the pop raises. -/
def registryAtMove (env : Env) (st : St) (file_id file_name : String)
    (file_size start_time : Nat) : Option Registry :=
  (admitOutcome env st file_id file_name file_size start_time).bind fun st1 =>
    match dictPop st1.registry file_id with
    | .ok (_, reg2) => some reg2
    | .error _ => none

/-- The `query.data == "yes"` branch of `button` (downloader.py lines
163-239), from the duplicate check to the final reply. `fetchResult` is
the outcome of `await context.bot.get_file(...)` (`.ok` carries
`new_file.file_path`); `start_time`, `download_complete_time` and
`complete_time` are the three `time.time()` readings; `chmodRaises`
injects a failure into the unguarded `os.chmod` call. -/
def buttonYes (env : Env) (st : St) (file_id file_name : String) (file_size : Nat)
    (start_time download_complete_time complete_time : Nat)
    (fetchResult : Except String String) (chmodRaises : Bool) : St × ButtonResult :=
  match admitOutcome env st file_id file_name file_size start_time with
  | none =>
    let check := check_file_exists st.fs env.download_to_dir st.registry file_id file_name
    (st, .alreadyExists ((index1 check).getD ""))
  | some st1 =>
    match fetchResult with
    | .error e => (st1, .fetchError e)
    | .ok fetched_path =>
      match dictPop st1.registry file_id with
      | .error e => (st1, .uncaught e)
      | .ok (_, reg2) =>
        let download_duration := convert_duration (download_complete_time - start_time)
        let file_path := lastComponent fetched_path
        let cur := current_file_path env file_path
        let dst := move_to_path env.download_to_dir file_name
        match shutilMove st1.fs cur dst with
        | .error e => ({ st1 with registry := reg2 }, .uncaught e)
        | .ok fs2 =>
          if env.platform_system == "Linux" && chmodRaises then
            ({ fs := fs2, registry := reg2, chmods := st1.chmods }, .uncaught "PermissionError")
          else
            let chmods2 :=
              if env.platform_system == "Linux" then st1.chmods ++ [(dst, 0o664)]
              else st1.chmods
            let moving_duration := convert_duration (complete_time - download_complete_time)
            let total_duration := convert_duration (complete_time - start_time)
            ({ fs := fs2, registry := reg2, chmods := chmods2 },
              .success ⟨file_name, file_path, convert_size file_size,
                download_duration, moving_duration, total_duration⟩)

/-!
## Path resolution (for the path-traversal analysis)

The code builds paths by bare string concatenation; to reason about
whether such a path stays inside the destination directory we normalise
slash-separated paths, resolving `.` and `..` segments.
-/

/-- Normalise a list of path segments, resolving `..` (pop) and dropping
`.` and empty segments; `acc` holds the already-resolved segments in
reverse. -/
def normSegsAux : List String → List String → List String
  | acc, [] => acc.reverse
  | acc, seg :: rest =>
    if seg == ".." then normSegsAux acc.tail rest
    else if seg == "." || seg == "" then normSegsAux acc rest
    else normSegsAux (seg :: acc) rest

/-- The resolved segment list of a slash-separated path. -/
def normSegs (p : String) : List String :=
  normSegsAux [] (pySplitSlash p)

/-- `p` resolves to a location inside directory `dir`: the resolved
segments of `dir` lead the resolved segments of `p`. -/
def resolvesWithin (dir p : String) : Bool :=
  (normSegs dir).isPrefixOf (normSegs p)

/-!
## Concurrent admission (asyncio interleaving model)

The admission block of `button` (duplicate check, then insertion into
`downloading_files`, lines 167-179) contains no `await`, so under
asyncio's cooperative scheduling it runs as one atomic step: any set of
concurrently submitted admission attempts is executed as some sequential
order of these atomic steps, with the filesystem unchanged in between
(admission touches only the registry). `runAdmits` runs such an order.
-/

/-- One concurrently submitted admission attempt (the data `button`
reads from the message before its admission block). -/
structure Att where
  file_id : String
  file_name : String
  file_size : Nat
  start_time : Nat
deriving Repr, DecidableEq

/-- One atomic execution of the admission block (lines 167-179) against
the shared registry: returns the new registry and whether the attempt was
admitted. Defined as the registry projection of `admitOutcome`. -/
def admitStep (fs : List String) (dir : String) (reg : Registry) (a : Att) : Registry × Bool :=
  match admitOutcome ⟨"", "", dir, ""⟩ ⟨fs, reg, []⟩ a.file_id a.file_name a.file_size a.start_time with
  | none => (reg, false)
  | some st1 => (st1.registry, true)

/-- Run a sequence of admission attempts (one interleaving order of the
concurrent attempts) against the shared registry; returns the final
registry and how many attempts were admitted. -/
def runAdmits (fs : List String) (dir : String) : Registry → List Att → Registry × Nat
  | reg, [] => (reg, 0)
  | reg, a :: rest =>
    match admitStep fs dir reg a with
    | (reg1, ok) =>
      match runAdmits fs dir reg1 rest with
      | (regf, n) => (regf, (if ok then 1 else 0) + n)

/-!
## Concrete fixtures
-/

/-- A concrete configuration: bot API directory `/api/`, token
subdirectory `TOKEN`, download directory `/downloads/`, Linux platform. -/
def env0 : Env := ⟨"/api/", "TOKEN", "/downloads/", "Linux"⟩

/-- The same configuration on macOS (`platform.system() == "Darwin"`,
a POSIX system that is not Linux). -/
def envDarwin : Env := ⟨"/api/", "TOKEN", "/downloads/", "Darwin"⟩

/-- Empty filesystem, empty registry. -/
def st0 : St := ⟨[], [], []⟩

/-- A world in which the bot API working directory holds exactly the
fetched temp file `file_42.bin`; registry empty. -/
def st6 : St := ⟨["/api/TOKEN/documents/file_42.bin"], [], []⟩

/-!
## Helper lemmas about the registry operations and the admission check
-/

theorem dictContains_iff {d : Registry} {k : String} :
    dictContains d k = true ↔ ∃ p ∈ d, p.1 = k := by
  simp [dictContains, List.any_eq_true]

theorem truthy_check_eq_true_iff (fs : List String) (dir : String) (reg : Registry)
    (fid fname : String) :
    truthy (check_file_exists fs dir reg fid fname) = true ↔
      (fs.contains (dir ++ fname) = true ∨ dictContains reg fid = true ∨
        (dictValues reg).any (fun file => file.file_name == fname) = true) := by
  unfold check_file_exists
  split_ifs with h1 h2 h3 <;> simp_all [truthy]

theorem truthy_check_eq_false_iff (fs : List String) (dir : String) (reg : Registry)
    (fid fname : String) :
    truthy (check_file_exists fs dir reg fid fname) = false ↔
      (fs.contains (dir ++ fname) = false ∧ dictContains reg fid = false ∧
        (dictValues reg).any (fun file => file.file_name == fname) = false) := by
  rw [← Bool.not_eq_true, truthy_check_eq_true_iff]
  simp [not_or]

theorem mem_dictInsert_self (d : Registry) (k : String) (v : DownloadingFile) :
    (k, v) ∈ dictInsert d k v := by
  unfold dictInsert
  split
  · rename_i h
    obtain ⟨p, hp, hpk⟩ := dictContains_iff.mp h
    rw [List.mem_map]
    refine ⟨p, hp, ?_⟩
    simp [hpk]
  · simp

theorem dictContains_dictInsert_self (d : Registry) (k : String) (v : DownloadingFile) :
    dictContains (dictInsert d k v) k = true :=
  dictContains_iff.mpr ⟨(k, v), mem_dictInsert_self d k v, rfl⟩

theorem mem_dictValues_dictInsert_self (d : Registry) (k : String) (v : DownloadingFile) :
    v ∈ dictValues (dictInsert d k v) :=
  List.mem_map.mpr ⟨(k, v), mem_dictInsert_self d k v, rfl⟩

theorem dictPop_of_contains {d : Registry} {k : String} (h : dictContains d k = true) :
    ∃ v, dictPop d k = .ok (v, d.filter (fun q => q.1 != k)) := by
  obtain ⟨p, hp, hpk⟩ := dictContains_iff.mp h
  unfold dictPop
  cases hfind : d.find? (fun q => q.1 == k) with
  | some q => exact ⟨q.2, rfl⟩
  | none =>
    have := List.find?_eq_none.mp hfind p hp
    simp [hpk] at this

theorem dictPop_of_not_contains {d : Registry} {k : String} (h : dictContains d k = false) :
    dictPop d k = .error "KeyError" := by
  unfold dictPop
  cases hfind : d.find? (fun q => q.1 == k) with
  | some q =>
    have hq := List.find?_some hfind
    have hmem := List.mem_of_find?_eq_some hfind
    have : dictContains d k = true := dictContains_iff.mpr ⟨q, hmem, by simpa using hq⟩
    rw [this] at h
    cases h
  | none => rfl

theorem dictContains_filter_out (d : Registry) (k : String) :
    dictContains (d.filter (fun q => q.1 != k)) k = false := by
  rw [← Bool.not_eq_true, dictContains_iff]
  rintro ⟨p, hp, hpk⟩
  rw [List.mem_filter] at hp
  simp [hpk] at hp

/-!
## Claim theorems
-/

/-- C1: the claim says the registry entry for `fileId` is removed before
the handler returns on every exit path of the admitted `yes` branch. The
code violates this on the fetch-failure exit: this run is admitted (the
duplicate check is falsy), `context.bot.get_file` raises, the handler
replies with the error and returns — and the registry still contains the
entry for `"f1"`, because the `except` branch returns before the
`downloading_files.pop` at line 201. -/
theorem button_leaks_registry_on_fetch_failure :
    truthy (check_file_exists st0.fs env0.download_to_dir st0.registry "f1" "a.mp4") = false ∧
    (buttonYes env0 st0 "f1" "a.mp4" 5 0 1 2 (.error "Timed out") false).2 =
      .fetchError "Timed out" ∧
    dictContains
      (buttonYes env0 st0 "f1" "a.mp4" 5 0 1 2 (.error "Timed out") false).1.registry
      "f1" = true := by
  decide

/-- C3: `check_file_exists` rejects (returns a truthy value) exactly when
(a) the path `DOWNLOAD_TO_DIR + fileName` exists on disk, or (b) `fileId`
is a key of `downloading_files`, or (c) some registered entry has the
same `fileName`; otherwise it returns a falsy value (admission allowed). -/
theorem check_file_exists_rejects_iff (fs : List String) (dir : String) (reg : Registry)
    (fid fname : String) :
    truthy (check_file_exists fs dir reg fid fname) = true ↔
      ((dir ++ fname) ∈ fs ∨ (∃ p ∈ reg, p.1 = fid) ∨
        (∃ p ∈ reg, p.2.file_name = fname)) := by
  rw [truthy_check_eq_true_iff]
  simp only [dictContains, dictValues, List.any_eq_true, List.elem_iff,
    List.mem_map, beq_iff_eq]
  constructor
  · rintro (h | h | ⟨f, ⟨p, hp, rfl⟩, hf⟩)
    · exact Or.inl h
    · obtain ⟨p, hp, hk⟩ := h
      exact Or.inr (Or.inl ⟨p, hp, hk⟩)
    · exact Or.inr (Or.inr ⟨p, hp, hf⟩)
  · rintro (h | ⟨p, hp, hk⟩ | ⟨p, hp, hf⟩)
    · exact Or.inl h
    · exact Or.inr (Or.inl ⟨p, hp, hk⟩)
    · exact Or.inr (Or.inr ⟨p.2, ⟨p, hp, rfl⟩, hf⟩)

/-- C9 counterexample: releasing an absent `fileId` is not a no-op — the
code's release is `downloading_files.pop(file_id)` with no default, which
raises `KeyError` on the empty registry. -/
theorem dictPop_absent_raises :
    dictPop ([] : Registry) "f1" = .error "KeyError" := rfl

/-- C9 amended: the release at line 201 (`dict.pop` without a default) is
not idempotent: popping an absent `fileId` raises `KeyError`; popping a
present `fileId` removes its entry, and popping the same `fileId` again
raises `KeyError`. -/
theorem dictPop_not_idempotent (d : Registry) (k : String) :
    (dictContains d k = false → dictPop d k = .error "KeyError") ∧
    (dictContains d k = true →
      ∃ v, dictPop d k = .ok (v, d.filter (fun q => q.1 != k)) ∧
        dictPop (d.filter (fun q => q.1 != k)) k = .error "KeyError") := by
  refine ⟨fun h => dictPop_of_not_contains h, fun h => ?_⟩
  obtain ⟨v, hv⟩ := dictPop_of_contains h
  exact ⟨v, hv, dictPop_of_not_contains (dictContains_filter_out d k)⟩

/-- Witness for C9's amended theorem at a concrete registry: popping the
one-entry registry removes it, and popping again raises `KeyError`. -/
theorem dictPop_not_idempotent_witness :
    ∃ v, dictPop ([("f1", ⟨"a.mp4", 5, 0⟩)] : Registry) "f1" =
        .ok (v, ([("f1", ⟨"a.mp4", 5, 0⟩)] : Registry).filter (fun q => q.1 != "f1")) ∧
      dictPop (([("f1", ⟨"a.mp4", 5, 0⟩)] : Registry).filter (fun q => q.1 != "f1")) "f1" =
        .error "KeyError" :=
  (dictPop_not_idempotent [("f1", ⟨"a.mp4", 5, 0⟩)] "f1").2 (by decide)

/-- C10: `check_file_exists` returns the 2-tuple `(True, msg)` exactly
when one of the duplicate conditions holds, and the bare boolean `False`
exactly when admission is allowed; indexing the result with `[1]` is
defined exactly on the truthy (rejection) branch, so the callers at lines
108-110 and 167-169, which evaluate `check[1]` only under
`if check := check_file_exists(...)`, never index the bare boolean. -/
theorem check_file_exists_return_shape (fs : List String) (dir : String) (reg : Registry)
    (fid fname : String) :
    ((fs.contains (dir ++ fname) = true ∨ dictContains reg fid = true ∨
        (dictValues reg).any (fun file => file.file_name == fname) = true) ↔
      ∃ msg, check_file_exists fs dir reg fid fname = .tuple true msg) ∧
    (¬(fs.contains (dir ++ fname) = true ∨ dictContains reg fid = true ∨
        (dictValues reg).any (fun file => file.file_name == fname) = true) ↔
      check_file_exists fs dir reg fid fname = .boolean false) ∧
    (index1 (check_file_exists fs dir reg fid fname)).isSome =
      truthy (check_file_exists fs dir reg fid fname) := by
  unfold check_file_exists
  split_ifs with h1 h2 h3 <;> simp_all [truthy, index1]

theorem admitOutcome_eq_some {env : Env} {st : St} {fid fname : String} {fsize t0 : Nat}
    {st1 : St} (h : admitOutcome env st fid fname fsize t0 = some st1) :
    truthy (check_file_exists st.fs env.download_to_dir st.registry fid fname) = false ∧
    st1 = { st with registry := dictInsert st.registry fid ⟨fname, fsize, t0⟩ } := by
  unfold admitOutcome at h
  split_ifs at h with hc
  exact ⟨by simpa using hc, (Option.some.inj h).symm⟩

/-- C4 counterexample: this run is admitted (`admitOutcome` is `some`),
yet the registry in effect when `shutil.move` executes is empty — the
entry for `"f1"` is already gone during relocation, because the `pop` at
line 201 runs right after the fetch, before the move at line 216. -/
theorem registry_absent_during_relocation :
    (admitOutcome env0 st0 "f1" "a.mp4" 5 0).isSome = true ∧
    registryAtMove env0 st0 "f1" "a.mp4" 5 0 = some [] ∧
    dictContains ([] : Registry) "f1" = false := by
  decide

/-- C4 amended: for every admitted transfer, the registry entry is
present during the fetch (it is in the post-admission registry); after a
successful fetch it is removed immediately — before relocation — so the
registry at the move step never contains `fileId`; and on fetch failure
it is never removed (the handler returns with the entry still present). -/
theorem registry_entry_lifecycle (env : Env) (st : St) (fid fname : String)
    (fsize t0 t1 t2 : Nat) (cause : String) (ch : Bool) (st1 : St)
    (hAdm : admitOutcome env st fid fname fsize t0 = some st1) :
    dictContains st1.registry fid = true ∧
    (∀ r, registryAtMove env st fid fname fsize t0 = some r →
      dictContains r fid = false) ∧
    dictContains
      (buttonYes env st fid fname fsize t0 t1 t2 (.error cause) ch).1.registry
      fid = true := by
  obtain ⟨hc, hst1⟩ := admitOutcome_eq_some hAdm
  subst hst1
  refine ⟨dictContains_dictInsert_self _ _ _, ?_, ?_⟩
  · intro r hr
    unfold registryAtMove at hr
    rw [hAdm] at hr
    obtain ⟨v, hpop⟩ :=
      dictPop_of_contains (dictContains_dictInsert_self st.registry fid ⟨fname, fsize, t0⟩)
    simp only [Option.some_bind, hpop] at hr
    cases hr
    exact dictContains_filter_out _ _
  · unfold buttonYes
    rw [hAdm]
    exact dictContains_dictInsert_self _ _ _

/-- Witness for C4's amended theorem at a concrete admitted run: the
entry is in the registry during the fetch, absent in the registry the
move step sees, and still present after a fetch failure. -/
theorem registry_entry_lifecycle_witness :
    dictContains (dictInsert st0.registry "f1" ⟨"a.mp4", 5, 0⟩) "f1" = true ∧
    dictContains ([] : Registry) "f1" = false ∧
    dictContains
      (buttonYes env0 st0 "f1" "a.mp4" 5 0 1 2 (.error "err") false).1.registry
      "f1" = true :=
  let h := registry_entry_lifecycle env0 st0 "f1" "a.mp4" 5 0 1 2 "err" false
    { st0 with registry := dictInsert st0.registry "f1" ⟨"a.mp4", 5, 0⟩ } (by decide)
  ⟨h.1, h.2.1 [] (by decide), h.2.2⟩

/-- C8: for every admitted transfer whose fetch raises, the `yes` branch
reports a fetch error carrying the cause, and the filesystem — in
particular the destination directory — is unchanged: the failed fetch's
temp path is never moved. -/
theorem fetch_failure_returns_error_and_preserves_fs (env : Env) (st : St)
    (fid fname : String) (fsize t0 t1 t2 : Nat) (cause : String) (ch : Bool) (st1 : St)
    (hAdm : admitOutcome env st fid fname fsize t0 = some st1) :
    (buttonYes env st fid fname fsize t0 t1 t2 (.error cause) ch).2 = .fetchError cause ∧
    (buttonYes env st fid fname fsize t0 t1 t2 (.error cause) ch).1.fs = st.fs := by
  obtain ⟨hc, hst1⟩ := admitOutcome_eq_some hAdm
  unfold buttonYes
  rw [hAdm]
  subst hst1
  exact ⟨rfl, rfl⟩

/-- Witness for C8 at a concrete admitted run with a failing fetch. -/
theorem fetch_failure_frame_witness :
    (buttonYes env0 st0 "f1" "a.mp4" 5 0 1 2 (.error "boom") false).2 =
      .fetchError "boom" ∧
    (buttonYes env0 st0 "f1" "a.mp4" 5 0 1 2 (.error "boom") false).1.fs = st0.fs :=
  fetch_failure_returns_error_and_preserves_fs env0 st0 "f1" "a.mp4" 5 0 1 2 "boom" false
    { st0 with registry := dictInsert st0.registry "f1" ⟨"a.mp4", 5, 0⟩ } (by decide)

/-- Reduction of the `yes` branch on the success path: admitted run,
fetch returned `path`, and the fetched temp file exists where line 211
expects it. The run pops the registry entry, moves the temp file to
`move_to_path`, and then either raises out of the unguarded `os.chmod`
(Linux with an injected chmod failure) or reports success. -/
theorem buttonYes_success_run (env : Env) (st : St) (fid fname : String)
    (fsize t0 t1 t2 : Nat) (path : String) (ch : Bool) (st1 : St)
    (hAdm : admitOutcome env st fid fname fsize t0 = some st1)
    (hsrc : st1.fs.contains (current_file_path env (lastComponent path)) = true) :
    buttonYes env st fid fname fsize t0 t1 t2 (.ok path) ch =
      (let reg2 := st1.registry.filter (fun q => q.1 != fid)
      let dst := move_to_path env.download_to_dir fname
      let fs2 := dst :: st1.fs.filter (fun p => p != current_file_path env (lastComponent path))
      if env.platform_system == "Linux" && ch then
        ({ fs := fs2, registry := reg2, chmods := st1.chmods }, .uncaught "PermissionError")
      else
        ({ fs := fs2, registry := reg2,
            chmods := if env.platform_system == "Linux" then
              st1.chmods ++ [(dst, 0o664)] else st1.chmods },
          .success ⟨fname, lastComponent path, convert_size fsize,
            convert_duration (t1 - t0), convert_duration (t2 - t1),
            convert_duration (t2 - t0)⟩)) := by
  obtain ⟨hc, hst1⟩ := admitOutcome_eq_some hAdm
  have hcontains : dictContains st1.registry fid = true := by
    rw [hst1]
    exact dictContains_dictInsert_self _ _ _
  obtain ⟨v, hpop⟩ := dictPop_of_contains hcontains
  unfold buttonYes
  rw [hAdm]
  simp only [hpop, shutilMove, hsrc, if_true]

/-- Corollary of `buttonYes_success_run`: when the chmod does not raise
(non-Linux platform or no injected fault), the run reports success. -/
theorem buttonYes_ok_noRaise (env : Env) (st : St) (fid fname : String)
    (fsize t0 t1 t2 : Nat) (path : String) (ch : Bool) (st1 : St)
    (hAdm : admitOutcome env st fid fname fsize t0 = some st1)
    (hsrc : st1.fs.contains (current_file_path env (lastComponent path)) = true)
    (hnr : (env.platform_system == "Linux" && ch) = false) :
    buttonYes env st fid fname fsize t0 t1 t2 (.ok path) ch =
      ({ fs := move_to_path env.download_to_dir fname ::
            st1.fs.filter (fun p => p != current_file_path env (lastComponent path)),
          registry := st1.registry.filter (fun q => q.1 != fid),
          chmods := if env.platform_system == "Linux" then
              st1.chmods ++ [(move_to_path env.download_to_dir fname, 0o664)]
            else st1.chmods },
        .success ⟨fname, lastComponent path, convert_size fsize,
          convert_duration (t1 - t0), convert_duration (t2 - t1),
          convert_duration (t2 - t0)⟩) := by
  rw [buttonYes_success_run env st fid fname fsize t0 t1 t2 path ch st1 hAdm hsrc]
  simp [hnr]

/-- Corollary of `buttonYes_success_run`: on Linux with a failing
`os.chmod`, the exception escapes after the move has already happened. -/
theorem buttonYes_ok_chmodRaise (env : Env) (st : St) (fid fname : String)
    (fsize t0 t1 t2 : Nat) (path : String) (ch : Bool) (st1 : St)
    (hAdm : admitOutcome env st fid fname fsize t0 = some st1)
    (hsrc : st1.fs.contains (current_file_path env (lastComponent path)) = true)
    (hr : (env.platform_system == "Linux" && ch) = true) :
    buttonYes env st fid fname fsize t0 t1 t2 (.ok path) ch =
      ({ fs := move_to_path env.download_to_dir fname ::
            st1.fs.filter (fun p => p != current_file_path env (lastComponent path)),
          registry := st1.registry.filter (fun q => q.1 != fid),
          chmods := st1.chmods },
        .uncaught "PermissionError") := by
  rw [buttonYes_success_run env st fid fname fsize t0 t1 t2 path ch st1 hAdm hsrc]
  simp [hr]

/-- C5 counterexample: nothing sanitizes the sender-supplied file name —
`move_to_path` is bare concatenation, and the file name `"../secret"`
produces a destination that resolves outside the download directory
(while an ordinary name stays inside). -/
theorem path_traversal_not_prevented :
    move_to_path "/downloads/" "../secret" = "/downloads/../secret" ∧
    resolvesWithin "/downloads/" (move_to_path "/downloads/" "../secret") = false ∧
    resolvesWithin "/downloads/" (move_to_path "/downloads/" "a.mp4") = true := by
  decide

/-- C5 amended: the sender-supplied `fileName` is used unsanitized: the
relocation destination actually created by an admitted, successful run is
exactly the raw concatenation `DOWNLOAD_TO_DIR ++ fileName` (the same
string the duplicate-existence check probes), so nothing prevents a
`fileName` with `..` segments from resolving outside the destination
directory. -/
theorem relocation_uses_unsanitized_file_name (env : Env) (st : St) (fid fname : String)
    (fsize t0 t1 t2 : Nat) (path : String) (ch : Bool) (st1 : St)
    (hAdm : admitOutcome env st fid fname fsize t0 = some st1)
    (hsrc : st1.fs.contains (current_file_path env (lastComponent path)) = true) :
    move_to_path env.download_to_dir fname = env.download_to_dir ++ fname ∧
    (env.download_to_dir ++ fname) ∈
      (buttonYes env st fid fname fsize t0 t1 t2 (.ok path) ch).1.fs := by
  rw [buttonYes_success_run env st fid fname fsize t0 t1 t2 path ch st1 hAdm hsrc]
  refine ⟨rfl, ?_⟩
  split <;> exact List.mem_cons_self _ _

/-- Witness for C5's amended theorem: a concrete admitted run whose
sender chose the traversal name `"../secret"`; the moved file lands at
the raw concatenation `/downloads/../secret`. -/
theorem relocation_uses_unsanitized_file_name_witness :
    move_to_path env0.download_to_dir "../secret" = env0.download_to_dir ++ "../secret" ∧
    (env0.download_to_dir ++ "../secret") ∈
      (buttonYes env0 st6 "f1" "../secret" 5 0 1 2 (.ok "file/file_42.bin") false).1.fs :=
  relocation_uses_unsanitized_file_name env0 st6 "f1" "../secret" 5 0 1 2
    "file/file_42.bin" false
    { st6 with registry := dictInsert st6.registry "f1" ⟨"../secret", 5, 0⟩ }
    (by decide) (by decide)

/-- C6 counterexample: a fully successful run whose summary reports
`file_path = "file_42.bin"` — the basename of the fetched temp path —
which is not the final destination `/downloads/a.mp4` the claim says is
reported. -/
theorem summary_reports_temp_basename :
    (buttonYes env0 st6 "f1" "a.mp4" 5 0 1 2 (.ok "file/file_42.bin") false).2 =
      .success ⟨"a.mp4", "file_42.bin", "5 B", "00:00:01", "00:00:01", "00:00:02"⟩ ∧
    move_to_path env0.download_to_dir "a.mp4" = "/downloads/a.mp4" ∧
    ("file_42.bin" : String) ≠ "/downloads/a.mp4" := by
  decide

/-- C6 amended: for every admitted run with a successful fetch and a
successful move (and no chmod fault), the reported summary's `file_path`
is the last component of the fetched temp path — not the destination
path; the relocated file does appear at `destinationDir ++ fileName`, and
the fetched temp file no longer exists at its original path. -/
theorem success_summary_path_and_relocation (env : Env) (st : St) (fid fname : String)
    (fsize t0 t1 t2 : Nat) (path : String) (st1 : St)
    (hAdm : admitOutcome env st fid fname fsize t0 = some st1)
    (hsrc : st1.fs.contains (current_file_path env (lastComponent path)) = true)
    (hne : current_file_path env (lastComponent path) ≠ move_to_path env.download_to_dir fname) :
    ∃ s, (buttonYes env st fid fname fsize t0 t1 t2 (.ok path) false).2 = .success s ∧
      s.file_path = lastComponent path ∧
      s.file_name = fname ∧
      move_to_path env.download_to_dir fname ∈
        (buttonYes env st fid fname fsize t0 t1 t2 (.ok path) false).1.fs ∧
      current_file_path env (lastComponent path) ∉
        (buttonYes env st fid fname fsize t0 t1 t2 (.ok path) false).1.fs := by
  rw [buttonYes_ok_noRaise env st fid fname fsize t0 t1 t2 path false st1 hAdm hsrc
    (by simp)]
  refine ⟨_, rfl, rfl, rfl, List.mem_cons_self _ _, ?_⟩
  intro hmem
  rcases List.mem_cons.mp hmem with heq | hmem2
  · exact hne heq
  · rw [List.mem_filter] at hmem2
    simp at hmem2

/-- Witness for C6's amended theorem at a concrete successful run. -/
theorem success_summary_path_and_relocation_witness :
    ∃ s, (buttonYes env0 st6 "f1" "a.mp4" 5 0 1 2 (.ok "file/file_42.bin") false).2 =
        .success s ∧
      s.file_path = lastComponent "file/file_42.bin" ∧
      s.file_name = "a.mp4" ∧
      move_to_path env0.download_to_dir "a.mp4" ∈
        (buttonYes env0 st6 "f1" "a.mp4" 5 0 1 2 (.ok "file/file_42.bin") false).1.fs ∧
      current_file_path env0 (lastComponent "file/file_42.bin") ∉
        (buttonYes env0 st6 "f1" "a.mp4" 5 0 1 2 (.ok "file/file_42.bin") false).1.fs :=
  success_summary_path_and_relocation env0 st6 "f1" "a.mp4" 5 0 1 2 "file/file_42.bin"
    { st6 with registry := dictInsert st6.registry "f1" ⟨"a.mp4", 5, 0⟩ }
    (by decide) (by decide) (by decide)

/-- C7 counterexample: on Linux an injected `os.chmod` failure escapes
the handler — the transfer is not reported as successful, contradicting
"best-effort"; and on Darwin (a POSIX system that is not Linux) no
permission bits are applied at all, contradicting "on POSIX systems". -/
theorem chmod_failure_aborts_success_report :
    (buttonYes env0 st6 "f1" "a.mp4" 5 0 1 2 (.ok "file/file_42.bin") true).2 =
      .uncaught "PermissionError" ∧
    (buttonYes envDarwin st6 "f1" "a.mp4" 5 0 1 2 (.ok "file/file_42.bin") false).1.chmods
      = [] ∧
    (∃ s, (buttonYes envDarwin st6 "f1" "a.mp4" 5 0 1 2 (.ok "file/file_42.bin") false).2
      = .success s) := by
  exact ⟨by decide, by decide,
    ⟨"a.mp4", "file_42.bin", "5 B", "00:00:01", "00:00:01", "00:00:02"⟩, by decide⟩

/-- C7 amended: the permission fix is applied only when
`platform.system() == "Linux"` (not on every POSIX system), with mode
`0o664` on the relocated path; and it is not best-effort: the `os.chmod`
call is unguarded, so when it raises, the exception escapes and the
transfer is not reported as successful (the file is nonetheless already
at its destination); on non-Linux platforms no permission bits are
applied and the transfer is reported as successful. -/
theorem chmod_linux_only_and_unguarded (env : Env) (st : St) (fid fname : String)
    (fsize t0 t1 t2 : Nat) (path : String) (st1 : St)
    (hAdm : admitOutcome env st fid fname fsize t0 = some st1)
    (hsrc : st1.fs.contains (current_file_path env (lastComponent path)) = true) :
    ((env.platform_system == "Linux") = true →
      (buttonYes env st fid fname fsize t0 t1 t2 (.ok path) false).1.chmods =
        st1.chmods ++ [(move_to_path env.download_to_dir fname, 0o664)] ∧
      (∃ s, (buttonYes env st fid fname fsize t0 t1 t2 (.ok path) false).2 = .success s) ∧
      (buttonYes env st fid fname fsize t0 t1 t2 (.ok path) true).2 =
        .uncaught "PermissionError" ∧
      move_to_path env.download_to_dir fname ∈
        (buttonYes env st fid fname fsize t0 t1 t2 (.ok path) true).1.fs) ∧
    ((env.platform_system == "Linux") = false → ∀ ch,
      (buttonYes env st fid fname fsize t0 t1 t2 (.ok path) ch).1.chmods = st1.chmods ∧
      ∃ s, (buttonYes env st fid fname fsize t0 t1 t2 (.ok path) ch).2 = .success s) := by
  constructor
  · intro hlin
    rw [buttonYes_ok_noRaise env st fid fname fsize t0 t1 t2 path false st1 hAdm hsrc
        (by simp),
      buttonYes_ok_chmodRaise env st fid fname fsize t0 t1 t2 path true st1 hAdm hsrc
        (by simp [hlin])]
    exact ⟨by simp [hlin], ⟨_, rfl⟩, rfl, List.mem_cons_self _ _⟩
  · intro hlin ch
    have hnr : (env.platform_system == "Linux" && ch) = false := by simp [hlin]
    rw [buttonYes_ok_noRaise env st fid fname fsize t0 t1 t2 path ch st1 hAdm hsrc hnr]
    exact ⟨by simp [hlin], _, rfl⟩

/-- Witness for C7's amended theorem: the concrete Linux run applies
mode `0o664` to `/downloads/a.mp4`, and the injected chmod failure run
raises instead of reporting success. -/
theorem chmod_linux_only_and_unguarded_witness :
    (buttonYes env0 st6 "f1" "a.mp4" 5 0 1 2 (.ok "file/file_42.bin") false).1.chmods =
      ({ st6 with registry := dictInsert st6.registry "f1" ⟨"a.mp4", 5, 0⟩ } : St).chmods
        ++ [(move_to_path env0.download_to_dir "a.mp4", 0o664)] ∧
    (∃ s, (buttonYes env0 st6 "f1" "a.mp4" 5 0 1 2 (.ok "file/file_42.bin") false).2 =
      .success s) ∧
    (buttonYes env0 st6 "f1" "a.mp4" 5 0 1 2 (.ok "file/file_42.bin") true).2 =
      .uncaught "PermissionError" ∧
    move_to_path env0.download_to_dir "a.mp4" ∈
      (buttonYes env0 st6 "f1" "a.mp4" 5 0 1 2 (.ok "file/file_42.bin") true).1.fs :=
  (chmod_linux_only_and_unguarded env0 st6 "f1" "a.mp4" 5 0 1 2 "file/file_42.bin"
    { st6 with registry := dictInsert st6.registry "f1" ⟨"a.mp4", 5, 0⟩ }
    (by decide) (by decide)).1 (by decide)

theorem admitStep_rejected {fs : List String} {dir : String} {reg : Registry} {a : Att}
    (h : truthy (check_file_exists fs dir reg a.file_id a.file_name) = true) :
    admitStep fs dir reg a = (reg, false) := by
  unfold admitStep admitOutcome
  simp [h]

theorem admitStep_admitted {fs : List String} {dir : String} {reg : Registry} {a : Att}
    (h : truthy (check_file_exists fs dir reg a.file_id a.file_name) = false) :
    admitStep fs dir reg a =
      (dictInsert reg a.file_id ⟨a.file_name, a.file_size, a.start_time⟩, true) := by
  unfold admitStep admitOutcome
  simp [h]

theorem runAdmits_all_rejected (fs : List String) (dir : String) (atts : List Att)
    (reg : Registry)
    (h : ∀ a ∈ atts, truthy (check_file_exists fs dir reg a.file_id a.file_name) = true) :
    runAdmits fs dir reg atts = (reg, 0) := by
  induction atts with
  | nil => rfl
  | cons a rest ih =>
    rw [runAdmits, admitStep_rejected (h a (List.mem_cons_self a rest))]
    simp [ih (fun b hb => h b (List.mem_cons_of_mem a hb))]

/-- C2: the admission block of `button` (duplicate check then insertion,
lines 167-179) contains no `await`, so each attempt's check-then-insert
runs as one atomic step of the asyncio event loop; for any nonempty set
of concurrent attempts that pairwise conflict (same `fileId` or same
`fileName`), each of which would individually be admitted from the
starting state, every interleaving (modelled as an arbitrary arrival
order) admits exactly one attempt — the rest are rejected by the
duplicate check. -/
theorem concurrent_admission_serializes (fs : List String) (dir : String)
    (reg0 : Registry) (atts : List Att)
    (hne : atts ≠ [])
    (hadm : ∀ a ∈ atts,
      truthy (check_file_exists fs dir reg0 a.file_id a.file_name) = false)
    (hconf : ∀ a ∈ atts, ∀ b ∈ atts, a.file_id = b.file_id ∨ a.file_name = b.file_name) :
    (runAdmits fs dir reg0 atts).2 = 1 := by
  cases atts with
  | nil => exact absurd rfl hne
  | cons a rest =>
    have ha := hadm a (List.mem_cons_self a rest)
    have hreject : ∀ b ∈ rest,
        truthy (check_file_exists fs dir
          (dictInsert reg0 a.file_id ⟨a.file_name, a.file_size, a.start_time⟩)
          b.file_id b.file_name) = true := by
      intro b hb
      rcases hconf a (List.mem_cons_self a rest) b (List.mem_cons_of_mem a hb)
        with hid | hname
      · refine (truthy_check_eq_true_iff _ _ _ _ _).mpr (Or.inr (Or.inl ?_))
        rw [← hid]
        exact dictContains_dictInsert_self reg0 a.file_id _
      · refine (truthy_check_eq_true_iff _ _ _ _ _).mpr (Or.inr (Or.inr ?_))
        rw [List.any_eq_true]
        exact ⟨⟨a.file_name, a.file_size, a.start_time⟩,
          mem_dictValues_dictInsert_self _ _ _, by simp [hname]⟩
    rw [runAdmits, admitStep_admitted ha]
    simp [runAdmits_all_rejected fs dir rest _ hreject]

/-- Witness for C2 at three concrete conflicting attempts (two sharing
`fileId` `"f1"`, two sharing `fileName` `"a.mp4"` across distinct
identifiers): run in arrival order, exactly one is admitted. -/
theorem concurrent_admission_serializes_witness :
    (runAdmits [] "/downloads/" []
      [⟨"f1", "a.mp4", 5, 0⟩, ⟨"f1", "a.mp4", 6, 1⟩, ⟨"f2", "a.mp4", 7, 2⟩]).2 = 1 :=
  concurrent_admission_serializes [] "/downloads/" []
    [⟨"f1", "a.mp4", 5, 0⟩, ⟨"f1", "a.mp4", 6, 1⟩, ⟨"f2", "a.mp4", 7, 2⟩]
    (by decide) (by decide) (by decide)

end TelegramDownloader
